import Mathlib

/-! # endorse-client-go: key cache cipher and command-line flag resolution

A shallow embedding of two parts of `soracom/endorse-client-go`:

* package `endorse`, file `key_cache.go` (key derivation, `encode`, `decode`, `save`, `load`),
  exercised by `endorse/key_cache_test.go`;
* package `main`, file `cmd/endorse-cli/main.go` (`parseFlags`, `run`).

Byte strings (`[]byte`) are lists of natural numbers; a byte is a number below 256.
Functions returning `(value, error)` return `Except String value`.
-/

namespace endorse

/-! ## AES-128 block cipher (`crypto/aes`), FIPS-197 -/

/-- The AES block size in bytes, `aes.BlockSize`. -/
def BlockSize : Nat := 16

/-- The AES substitution box, FIPS-197 figure 7, row by row. -/
def sboxTable : List Nat :=
  [0x63, 0x7c, 0x77, 0x7b, 0xf2, 0x6b, 0x6f, 0xc5, 0x30, 0x01, 0x67, 0x2b, 0xfe, 0xd7, 0xab, 0x76,
   0xca, 0x82, 0xc9, 0x7d, 0xfa, 0x59, 0x47, 0xf0, 0xad, 0xd4, 0xa2, 0xaf, 0x9c, 0xa4, 0x72, 0xc0,
   0xb7, 0xfd, 0x93, 0x26, 0x36, 0x3f, 0xf7, 0xcc, 0x34, 0xa5, 0xe5, 0xf1, 0x71, 0xd8, 0x31, 0x15,
   0x04, 0xc7, 0x23, 0xc3, 0x18, 0x96, 0x05, 0x9a, 0x07, 0x12, 0x80, 0xe2, 0xeb, 0x27, 0xb2, 0x75,
   0x09, 0x83, 0x2c, 0x1a, 0x1b, 0x6e, 0x5a, 0xa0, 0x52, 0x3b, 0xd6, 0xb3, 0x29, 0xe3, 0x2f, 0x84,
   0x53, 0xd1, 0x00, 0xed, 0x20, 0xfc, 0xb1, 0x5b, 0x6a, 0xcb, 0xbe, 0x39, 0x4a, 0x4c, 0x58, 0xcf,
   0xd0, 0xef, 0xaa, 0xfb, 0x43, 0x4d, 0x33, 0x85, 0x45, 0xf9, 0x02, 0x7f, 0x50, 0x3c, 0x9f, 0xa8,
   0x51, 0xa3, 0x40, 0x8f, 0x92, 0x9d, 0x38, 0xf5, 0xbc, 0xb6, 0xda, 0x21, 0x10, 0xff, 0xf3, 0xd2,
   0xcd, 0x0c, 0x13, 0xec, 0x5f, 0x97, 0x44, 0x17, 0xc4, 0xa7, 0x7e, 0x3d, 0x64, 0x5d, 0x19, 0x73,
   0x60, 0x81, 0x4f, 0xdc, 0x22, 0x2a, 0x90, 0x88, 0x46, 0xee, 0xb8, 0x14, 0xde, 0x5e, 0x0b, 0xdb,
   0xe0, 0x32, 0x3a, 0x0a, 0x49, 0x06, 0x24, 0x5c, 0xc2, 0xd3, 0xac, 0x62, 0x91, 0x95, 0xe4, 0x79,
   0xe7, 0xc8, 0x37, 0x6d, 0x8d, 0xd5, 0x4e, 0xa9, 0x6c, 0x56, 0xf4, 0xea, 0x65, 0x7a, 0xae, 0x08,
   0xba, 0x78, 0x25, 0x2e, 0x1c, 0xa6, 0xb4, 0xc6, 0xe8, 0xdd, 0x74, 0x1f, 0x4b, 0xbd, 0x8b, 0x8a,
   0x70, 0x3e, 0xb5, 0x66, 0x48, 0x03, 0xf6, 0x0e, 0x61, 0x35, 0x57, 0xb9, 0x86, 0xc1, 0x1d, 0x9e,
   0xe1, 0xf8, 0x98, 0x11, 0x69, 0xd9, 0x8e, 0x94, 0x9b, 0x1e, 0x87, 0xe9, 0xce, 0x55, 0x28, 0xdf,
   0x8c, 0xa1, 0x89, 0x0d, 0xbf, 0xe6, 0x42, 0x68, 0x41, 0x99, 0x2d, 0x0f, 0xb0, 0x54, 0xbb, 0x16]

/-- One S-box lookup on a byte. -/
def subByte (b : Nat) : Nat := sboxTable.getD (b % 256) 0

/-- Multiplication by `x` in GF(2^8) modulo `x^8 + x^4 + x^3 + x + 1`. -/
def xtime (b : Nat) : Nat :=
  if b % 256 < 128 then 2 * (b % 256) else (2 * (b % 256) - 256) ^^^ 0x1b

/-- Bytewise exclusive or of two byte strings, up to the shorter one (`subtle.XORBytes`). -/
def xorBytes (a b : List Nat) : List Nat := List.zipWith (fun x y => x ^^^ y) a b

/-- SubBytes on the 16-byte state. -/
def subBytes (s : List Nat) : List Nat := s.map subByte

/-- ShiftRows: the state is held column by column, byte `r + 4 * c` is row `r` of
column `c`; row `r` is rotated left by `r` columns. -/
def shiftRows (s : List Nat) : List Nat :=
  (List.range 16).map fun i => s.getD (i % 4 + 4 * ((i / 4 + i % 4) % 4)) 0

/-- MixColumns on one column. -/
def mixColumn (a b c d : Nat) : List Nat :=
  [xtime a ^^^ (xtime b ^^^ b) ^^^ c ^^^ d,
   a ^^^ xtime b ^^^ (xtime c ^^^ c) ^^^ d,
   a ^^^ b ^^^ xtime c ^^^ (xtime d ^^^ d),
   (xtime a ^^^ a) ^^^ b ^^^ c ^^^ xtime d]

/-- MixColumns on the state, column after column. -/
def mixColumns : List Nat → List Nat
  | a :: b :: c :: d :: rest => mixColumn a b c d ++ mixColumns rest
  | _ => []

/-- The round constants of the AES-128 key schedule. -/
def rcon : List Nat := [0x01, 0x02, 0x04, 0x08, 0x10, 0x20, 0x40, 0x80, 0x1b, 0x36]

/-- The next 16-byte round key from the previous one and the round constant. -/
def nextRoundKey (rc : Nat) (k : List Nat) : List Nat :=
  let w0 := k.take 4
  let w1 := (k.drop 4).take 4
  let w2 := (k.drop 8).take 4
  let w3 := (k.drop 12).take 4
  let t := match w3 with
    | [a, b, c, d] => [subByte b ^^^ rc, subByte c, subByte d, subByte a]
    | _ => []
  let n0 := xorBytes w0 t
  let n1 := xorBytes w1 n0
  let n2 := xorBytes w2 n1
  let n3 := xorBytes w3 n2
  n0 ++ n1 ++ n2 ++ n3

/-- The round keys that follow `k`, one for each round constant given. -/
def expandKeyFrom (k : List Nat) : List Nat → List (List Nat)
  | [] => []
  | rc :: rcs => nextRoundKey rc k :: expandKeyFrom (nextRoundKey rc k) rcs

/-- The eleven round keys of AES-128 for a 16-byte key. -/
def expandKey (key : List Nat) : List (List Nat) := key :: expandKeyFrom key rcon

/-- The rounds after the initial key addition: nine full rounds, then the final round
without MixColumns. -/
def encryptRounds : List (List Nat) → List Nat → List Nat
  | [], s => s
  | [kLast], s => xorBytes (shiftRows (subBytes s)) kLast
  | k :: k2 :: ks, s =>
    encryptRounds (k2 :: ks) (xorBytes (mixColumns (shiftRows (subBytes s))) k)

/-- Encryption of one 16-byte block under the expanded key (`Block.Encrypt`). -/
def encryptBlock (rks : List (List Nat)) (src : List Nat) : List Nat :=
  match rks with
  | [] => src
  | k0 :: rest => encryptRounds rest (xorBytes src k0)

/-- The cipher for a key, `aes.NewCipher`: an expanded key, or an error for a key of
a size AES does not take. Only the 16-byte size (AES-128) is embedded: it is the only
size `makeKeyFromPassword` produces. -/
def NewCipher (key : List Nat) : Except String (List (List Nat)) :=
  if key.length = 16 then .ok (expandKey key) else .error "crypto/aes: invalid key size"


/-! ## Stream modes of `crypto/cipher` -/

/-- The counter of CTR mode plus one: the 16 bytes read as one big-endian number,
wrapping around at the top, given here on the reversed (little-endian) list. -/
def incCounterRev : List Nat → List Nat
  | [] => []
  | b :: bs => if (b + 1) % 256 = 0 then 0 :: incCounterRev bs else (b + 1) % 256 :: bs

/-- The counter of CTR mode plus one. -/
def incCounter (ctr : List Nat) : List Nat := (incCounterRev ctr.reverse).reverse

/-- CTR mode `XORKeyStream`: `ctr` is the counter block, `out` the key stream bytes
not yet used; an exhausted `out` is refilled with the encrypted counter, and the
counter is incremented. -/
def ctrXOR (rks : List (List Nat)) : List Nat → List Nat → List Nat → List Nat
  | _, _, [] => []
  | ctr, [], b :: bs =>
    (b ^^^ (encryptBlock rks ctr).headD 0) ::
      ctrXOR rks (incCounter ctr) (encryptBlock rks ctr).tail bs
  | ctr, k :: ks, b :: bs => (b ^^^ k) :: ctrXOR rks ctr ks bs

/-- OFB mode `XORKeyStream`: `reg` is the feedback register, `out` the key stream
bytes not yet used; an exhausted `out` is refilled with the encrypted register, which
also becomes the new register. -/
def ofbXOR (rks : List (List Nat)) : List Nat → List Nat → List Nat → List Nat
  | _, _, [] => []
  | reg, [], b :: bs =>
    (b ^^^ (encryptBlock rks reg).headD 0) ::
      ofbXOR rks (encryptBlock rks reg) (encryptBlock rks reg).tail bs
  | reg, k :: ks, b :: bs => (b ^^^ k) :: ofbXOR rks reg ks bs

/-- CFB mode `XORKeyStream` (full-block feedback): `next` collects the ciphertext
bytes of the current block (at the start, the IV), `out` is the key stream not yet
used; an exhausted `out` is refilled with the encrypted `next`. The ciphertext byte
is the output byte when encrypting and the input byte when decrypting. -/
def cfbXOR (rks : List (List Nat)) (decrypt : Bool) :
    List Nat → List Nat → List Nat → List Nat
  | _, _, [] => []
  | next, [], b :: bs =>
    (b ^^^ (encryptBlock rks next).headD 0) ::
      cfbXOR rks decrypt
        [if decrypt then b else b ^^^ (encryptBlock rks next).headD 0]
        (encryptBlock rks next).tail bs
  | next, k :: ks, b :: bs =>
    (b ^^^ k) :: cfbXOR rks decrypt (next ++ [if decrypt then b else b ^^^ k]) ks bs

/-- The stream modes of `crypto/cipher` that take a block cipher and an IV of one
block and keep the length of the data. -/
inductive StreamMode where
  | ctr
  | cfb
  | ofb
  deriving DecidableEq, Repr

/-- The key stream of the chosen mode, started at `iv`, applied to `src`. -/
def xorKeyStream (mode : StreamMode) (decrypt : Bool) (rks : List (List Nat))
    (iv src : List Nat) : List Nat :=
  match mode with
  | .ctr => ctrXOR rks iv [] src
  | .cfb => cfbXOR rks decrypt iv [] src
  | .ofb => ofbXOR rks iv [] src

/-! ## Key cache cipher (`key_cache.go`) -/

/-- Modelled from the spec: `makeKeyFromPassword` of `key_cache.go` (the spec's
`deriveKey`), which is not among the source files. Spec 4.5: a password shorter than
16 bytes is right-padded with zero bytes to exactly 16, a longer one is truncated to
its first 16 bytes, one of exactly 16 bytes is used unchanged. -/
def makeKeyFromPassword (password : List Nat) : List Nat :=
  if password.length < 16 then password ++ List.replicate (16 - password.length) 0
  else if password.length > 16 then password.take 16
  else password

/-- Modelled from the spec: `encode` of `key_cache.go`, which is not among the source
files. Spec 4.5: the key, a caller-supplied 16-byte IV and a stream cipher produce a
ciphertext as long as the plaintext, and the output is the IV followed by the
ciphertext. The key is the 16-byte key derived from the bytes the caller passes
(`TestEncodeAndDecode` passes a 12-byte password). The spec names neither the block
cipher nor the mode: AES-128 is the cipher that gives the spec's example vector, and
the mode is a parameter. An IV that is not one block long is refused. -/
def encode (mode : StreamMode) (plainData key iv : List Nat) :
    Except String (List Nat) :=
  match NewCipher (makeKeyFromPassword key) with
  | .error e => .error e
  | .ok block =>
    if iv.length = BlockSize then .ok (iv ++ xorKeyStream mode false block iv plainData)
    else .error "cipher: IV length must equal block size"

/-- Modelled from the spec: `decode` of `key_cache.go`, which is not among the source
files. Spec 4.5: the first 16 bytes are split off as the IV, the remainder is
decrypted and returned; there is no integrity check. Input shorter than an IV is
refused. -/
def decode (mode : StreamMode) (encodedData key : List Nat) :
    Except String (List Nat) :=
  match NewCipher (makeKeyFromPassword key) with
  | .error e => .error e
  | .ok block =>
    if encodedData.length < BlockSize then .error "encoded data is too short"
    else .ok (xorKeyStream mode true block (encodedData.take BlockSize)
      (encodedData.drop BlockSize))


/-! ## Key cache (`key_cache.go`) -/

/-- Modelled from the spec: the `AuthenticationResult` of package `endorse`, whose
declaration is not among the source files; the fields are those `TestSaveAndLoad`
sets (spec 3: KeyID, IMSI, CK). -/
structure AuthenticationResult where
  KeyID : String
  IMSI : String
  CK : List Nat
  deriving DecidableEq, Repr

/-- Modelled from the spec: a key cache entry wraps one `AuthenticationResult`
(spec 3); the declaration is not among the source files. -/
structure keyCacheEntry where
  AuthResult : AuthenticationResult
  deriving DecidableEq, Repr

/-- Modelled from the spec: the serialization of the mapping, which spec 6 leaves
implementation-defined, requiring only that it round-trips. It is a parameter of
`save` and `load`. -/
structure Serializer where
  marshal : List (String × keyCacheEntry) → Except String (List Nat)
  unmarshal : List Nat → Except String (List (String × keyCacheEntry))

/-- A field: the length, then the items. -/
def writeField (bs : List Nat) : List Nat := bs.length :: bs

/-- The field of a string. -/
def writeString (s : String) : List Nat := writeField (s.toList.map Char.toNat)

/-- The entries one after the other. -/
def writeEntries : List (String × keyCacheEntry) → List Nat
  | [] => []
  | (k, e) :: rest =>
    writeString k ++ writeString e.AuthResult.KeyID ++ writeString e.AuthResult.IMSI
      ++ writeField e.AuthResult.CK ++ writeEntries rest

/-- Reads one field: its items and the input after it. -/
def readField : List Nat → Option (List Nat × List Nat)
  | [] => none
  | n :: rest => if rest.length < n then none else some (rest.take n, rest.drop n)

/-- The string of a field's items. -/
def readString (bs : List Nat) : String := String.mk (bs.map Char.ofNat)

/-- Reads `n` entries; the input has to end with the last one. -/
def readEntries : Nat → List Nat → Option (List (String × keyCacheEntry))
  | 0, [] => some []
  | 0, _ :: _ => none
  | n + 1, bs =>
    match readField bs with
    | none => none
    | some (k, bs1) =>
      match readField bs1 with
      | none => none
      | some (keyID, bs2) =>
        match readField bs2 with
        | none => none
        | some (imsi, bs3) =>
          match readField bs3 with
          | none => none
          | some (ck, bs4) =>
            match readEntries n bs4 with
            | none => none
            | some rest =>
              some ((readString k,
                { AuthResult :=
                    { KeyID := readString keyID, IMSI := readString imsi, CK := ck } })
                :: rest)

/-- The sample serializer. -/
def sampleSerializer : Serializer where
  marshal := fun entries => .ok (entries.length :: writeEntries entries)
  unmarshal := fun bs =>
    match bs with
    | [] => .error "unexpected end of input"
    | n :: rest =>
      match readEntries n rest with
      | none => .error "malformed input"
      | some entries => .ok entries


/-! ## Configuration types of package `endorse` used by `main.go` -/

/-- Modelled from the spec: the interface kinds (spec 3): direct reader,
serial passthrough, auto-detect, none. `main.go` names `UICCInterfaceTypeComm` and
`UICCInterfaceTypeNone`, and its `-interface` flag takes iso7816, comm or autoDetect;
the declaration is not among the source files. -/
inductive UICCInterfaceType where
  | UICCInterfaceTypeNone
  | UICCInterfaceTypeIso7816
  | UICCInterfaceTypeComm
  | UICCInterfaceTypeAutoDetect
  deriving DecidableEq, Repr

/-- Key cache behaviour flags, `endorse.KeyCacheConfig`. -/
structure KeyCacheConfig where
  Disabled : Bool
  Clear : Bool
  deriving DecidableEq, Repr

/-- Serial parameters, `endorse.SerialConfig`; the parity mode is kept as the number
given on the command line. -/
structure SerialConfig where
  PortName : String
  BaudRate : Nat
  DataBits : Nat
  StopBits : Nat
  ParityMode : Nat
  deriving DecidableEq, Repr

/-- A parsed URL, `url.URL`, kept as the text it was parsed from. -/
structure URL where
  raw : String
  deriving DecidableEq, Repr

/-- The configuration handed to `endorse.NewClient`; the logger is left out. -/
structure Config where
  KeysAPIEndpointURL : Option URL
  UICCInterfaceType : UICCInterfaceType
  KeyCache : KeyCacheConfig
  Serial : SerialConfig
  deriving DecidableEq, Repr

/-- Modelled from the spec: `endorse.ParseUICCInterfaceType`, which is not among the
source files, after the help text of the `-interface` flag in `main.go`: the valid
values are iso7816, comm and autoDetect. -/
def ParseUICCInterfaceType (s : String) : Except String UICCInterfaceType :=
  if s = "iso7816" then .ok .UICCInterfaceTypeIso7816
  else if s = "comm" then .ok .UICCInterfaceTypeComm
  else if s = "autoDetect" then .ok .UICCInterfaceTypeAutoDetect
  else .error "invalid UICC interface type"

end endorse

namespace cli

open endorse (UICCInterfaceType KeyCacheConfig SerialConfig URL Config)

/-! ## `cmd/endorse-cli/main.go` -/

/-- The run modes, `runMode`. -/
inductive runMode where
  | runModeNormal
  | runModeListCOMPorts
  | runModeDeviceInfo
  | runModeDoAuthentication
  | runModeDoNothing
  | runModeUnknown
  deriving DecidableEq, Repr

/-- The application settings, `appConfig`. -/
structure appConfig where
  Debug : Bool
  deriving DecidableEq, Repr

/-- The values of the command-line flags after `flag.Parse()`, with the defaults
`parseFlags` registers. -/
structure Flags where
  keysAPIEndpointURL : String := ""
  uiccInterfaceType : String := "autoDetect"
  portName : String := ""
  baudRate : Nat := 115200
  dataBits : Nat := 8
  stopBits : Nat := 1
  parityMode : Nat := 0
  listCOMPorts : Bool := false
  deviceInfo : Bool := false
  disableKeyCache : Bool := false
  clearKeyCache : Bool := false
  help : Bool := false
  version : Bool := false
  debug : Bool := false
  deriving DecidableEq, Repr

/-- The functions of other packages that `parseFlags` and `run` call: the parser of
the interface kind, `url.Parse`, `endorse.NewClient` (an error, or a client) and the
three client operations (an error, or the text printed). -/
structure Collaborators where
  ParseUICCInterfaceType : String → Except String UICCInterfaceType
  urlParse : String → Except String URL
  NewClient : Config → Option String
  ListCOMPorts : Config → Except String (List String)
  GetDeviceInfo : Config → Except String String
  DoAuthentication : Config → Except String String

/-- What `parseFlags` returns: the run mode, the two configurations (`none` is the
nil pointer) and the error (`none` is nil). -/
structure ParseResult where
  rm : runMode
  appCfg : Option appConfig
  eCfg : Option Config
  err : Option String
  deriving DecidableEq, Repr

/-- What the program does that can be seen from outside, in order. -/
inductive Event where
  | usage
  | showVersion
  | setupLogger (debug : Bool)
  | newClient (cfg : Config)
  | clientListCOMPorts
  | clientGetDeviceInfo
  | clientDoAuthentication
  | print (text : String)
  | clientClose
  deriving DecidableEq, Repr

/-- The function `parseFlags` on the parsed flag values; the help and version texts
it prints are left to `run`. -/
def parseFlags (c : Collaborators) (f : Flags) : ParseResult :=
  if f.help then
    { rm := .runModeDoNothing, appCfg := none, eCfg := none, err := none }
  else if f.version then
    { rm := .runModeDoNothing, appCfg := none, eCfg := none, err := none }
  else
    match c.ParseUICCInterfaceType f.uiccInterfaceType with
    | .error err => { rm := .runModeUnknown, appCfg := none, eCfg := none, err := some err }
    | .ok uit0 =>
      let uit := if f.portName ≠ "" then UICCInterfaceType.UICCInterfaceTypeComm else uit0
      let kc : KeyCacheConfig := { Disabled := f.disableKeyCache, Clear := f.clearKeyCache }
      let serial : SerialConfig :=
        { PortName := f.portName, BaudRate := f.baudRate, DataBits := f.dataBits,
          StopBits := f.stopBits, ParityMode := f.parityMode }
      let appCfg : appConfig := { Debug := f.debug }
      let kaeu : Except String (Option URL) :=
        if f.keysAPIEndpointURL ≠ "" then
          match c.urlParse f.keysAPIEndpointURL with
          | .error err => .error err
          | .ok u => .ok (some u)
        else .ok none
      match kaeu with
      | .error err => { rm := .runModeUnknown, appCfg := none, eCfg := none, err := some err }
      | .ok kaeu =>
        let eCfg : Config :=
          { KeysAPIEndpointURL := kaeu, UICCInterfaceType := uit, KeyCache := kc,
            Serial := serial }
        if f.listCOMPorts then
          { rm := .runModeListCOMPorts, appCfg := some appCfg,
            eCfg := some { eCfg with UICCInterfaceType := .UICCInterfaceTypeNone },
            err := none }
        else if f.deviceInfo then
          if f.portName = "" then
            { rm := .runModeUnknown, appCfg := none, eCfg := none,
              err := some "-port-name must be specified with -device-info" }
          else
            { rm := .runModeDeviceInfo, appCfg := some appCfg,
              eCfg := some { eCfg with UICCInterfaceType := .UICCInterfaceTypeComm },
              err := none }
        else
          { rm := .runModeDoAuthentication, appCfg := some appCfg, eCfg := some eCfg,
            err := none }

/-- The events of `parseFlags` itself: the help text or the version. -/
def parseFlagsEvents (f : Flags) : List Event :=
  if f.help then [.usage] else if f.version then [.showVersion] else []

/-- The function `run`: the events in order, and the error returned (`none` is
nil). The deferred `ec.Close()` is the last event once the client is open. The last
case, no error and a nil configuration in a mode other than `runModeDoNothing`, is
never returned by `parseFlags`. -/
def run (c : Collaborators) (f : Flags) : List Event × Option String :=
  let r := parseFlags c f
  match r.err with
  | some err => (parseFlagsEvents f, some err)
  | none =>
    if r.rm = .runModeDoNothing then (parseFlagsEvents f, none)
    else
      match r.appCfg, r.eCfg with
      | some appCfg, some eCfg =>
        let pre := parseFlagsEvents f ++ [.setupLogger appCfg.Debug, .newClient eCfg]
        match c.NewClient eCfg with
        | some err => (pre, some err)
        | none =>
          match r.rm with
          | .runModeListCOMPorts =>
            match c.ListCOMPorts eCfg with
            | .error err => (pre ++ [.clientListCOMPorts, .clientClose], some err)
            | .ok ports =>
              (pre ++ [.clientListCOMPorts, .print ("\n".intercalate ports), .clientClose],
                none)
          | .runModeDeviceInfo =>
            match c.GetDeviceInfo eCfg with
            | .error err => (pre ++ [.clientGetDeviceInfo, .clientClose], some err)
            | .ok di => (pre ++ [.clientGetDeviceInfo, .print di, .clientClose], none)
          | .runModeDoAuthentication =>
            match c.DoAuthentication eCfg with
            | .error err => (pre ++ [.clientDoAuthentication, .clientClose], some err)
            | .ok ar => (pre ++ [.clientDoAuthentication, .print ar, .clientClose], none)
          | _ => (pre ++ [.clientClose], some "unknown run mode")
      | _, _ => (parseFlagsEvents f, some "nil configuration")

/-- The endpoint URL of the flags as `parseFlags` takes it: absent for the empty text,
else what `url.Parse` returns. -/
def endpointOf (c : Collaborators) (f : Flags) : Except String (Option URL) :=
  if f.keysAPIEndpointURL ≠ "" then
    match c.urlParse f.keysAPIEndpointURL with
    | .error err => .error err
    | .ok u => .ok (some u)
  else .ok none

/-- Collaborators for concrete runs: the interface parser modelled above, a
`url.Parse` that takes every text, a client that always fails to open. -/
def sampleCollaborators : Collaborators where
  ParseUICCInterfaceType := endorse.ParseUICCInterfaceType
  urlParse := fun s => .ok { raw := s }
  NewClient := fun _ => some "no reader"
  ListCOMPorts := fun _ => .ok []
  GetDeviceInfo := fun _ => .error "no device"
  DoAuthentication := fun _ => .error "no device"

end cli

/-! # Lemmas and theorems -/

set_option maxRecDepth 100000

namespace endorse

/-! ## Lemmas on the key cache cipher -/

/-- The example of FIPS-197 appendix B: the embedding of AES-128 gives the published
ciphertext block. -/
theorem encryptBlock_fips197 :
    encryptBlock
        (expandKey [0x2b, 0x7e, 0x15, 0x16, 0x28, 0xae, 0xd2, 0xa6,
                    0xab, 0xf7, 0x15, 0x88, 0x09, 0xcf, 0x4f, 0x3c])
        [0x32, 0x43, 0xf6, 0xa8, 0x88, 0x5a, 0x30, 0x8d,
         0x31, 0x31, 0x98, 0xa2, 0xe0, 0x37, 0x07, 0x34]
      = [0x39, 0x25, 0x84, 0x1d, 0x02, 0xdc, 0x09, 0xfb,
         0xdc, 0x11, 0x85, 0x97, 0x19, 0x6a, 0x0b, 0x32] := by
  rfl

theorem makeKeyFromPassword_length (password : List Nat) :
    (makeKeyFromPassword password).length = 16 := by
  unfold makeKeyFromPassword
  split
  · simp only [List.length_append, List.length_replicate]; omega
  · split
    · simp only [List.length_take]; omega
    · omega

theorem NewCipher_makeKeyFromPassword (password : List Nat) :
    NewCipher (makeKeyFromPassword password)
      = .ok (expandKey (makeKeyFromPassword password)) := by
  simp [NewCipher, makeKeyFromPassword_length]

theorem ctrXOR_involutive (rks : List (List Nat)) (src : List Nat) :
    ∀ ctr out : List Nat, ctrXOR rks ctr out (ctrXOR rks ctr out src) = src := by
  induction src with
  | nil => intro ctr out; cases out <;> simp [ctrXOR]
  | cons b bs ih =>
    intro ctr out
    cases out <;> simp [ctrXOR, ih, Nat.xor_cancel_right]

theorem ofbXOR_involutive (rks : List (List Nat)) (src : List Nat) :
    ∀ reg out : List Nat, ofbXOR rks reg out (ofbXOR rks reg out src) = src := by
  induction src with
  | nil => intro reg out; cases out <;> simp [ofbXOR]
  | cons b bs ih =>
    intro reg out
    cases out <;> simp [ofbXOR, ih, Nat.xor_cancel_right]

theorem cfbXOR_decrypt_encrypt (rks : List (List Nat)) (src : List Nat) :
    ∀ next out : List Nat,
      cfbXOR rks true next out (cfbXOR rks false next out src) = src := by
  induction src with
  | nil => intro next out; cases out <;> simp [cfbXOR]
  | cons b bs ih =>
    intro next out
    cases out <;> simp [cfbXOR, ih, Nat.xor_cancel_right]

theorem xorKeyStream_decrypt_encrypt (mode : StreamMode) (rks : List (List Nat))
    (iv src : List Nat) :
    xorKeyStream mode true rks iv (xorKeyStream mode false rks iv src) = src := by
  cases mode
  · exact ctrXOR_involutive rks src iv []
  · exact cfbXOR_decrypt_encrypt rks src iv []
  · exact ofbXOR_involutive rks src iv []

theorem encode_eq (mode : StreamMode) (plainData key iv : List Nat) (hiv : iv.length = 16) :
    encode mode plainData key iv
      = .ok (iv ++ xorKeyStream mode false (expandKey (makeKeyFromPassword key)) iv plainData) := by
  simp [encode, NewCipher_makeKeyFromPassword, BlockSize, hiv]

theorem decode_eq (mode : StreamMode) (encodedData key : List Nat)
    (hlen : 16 ≤ encodedData.length) :
    decode mode encodedData key
      = .ok (xorKeyStream mode true (expandKey (makeKeyFromPassword key))
          (encodedData.take 16) (encodedData.drop 16)) := by
  simp [decode, NewCipher_makeKeyFromPassword, BlockSize]
  omega

theorem decode_encode_eq (mode : StreamMode) (plainData key iv : List Nat)
    (hiv : iv.length = 16) :
    decode mode
        (iv ++ xorKeyStream mode false (expandKey (makeKeyFromPassword key)) iv plainData)
        key
      = .ok plainData := by
  rw [decode_eq mode _ key (by simp [hiv])]
  have htake : (iv ++ xorKeyStream mode false (expandKey (makeKeyFromPassword key)) iv
      plainData).take 16 = iv := by
    rw [← hiv]; exact List.take_left' rfl
  have hdrop : (iv ++ xorKeyStream mode false (expandKey (makeKeyFromPassword key)) iv
      plainData).drop 16
      = xorKeyStream mode false (expandKey (makeKeyFromPassword key)) iv plainData := by
    rw [← hiv]; exact List.drop_left' rfl
  rw [htake, hdrop, xorKeyStream_decrypt_encrypt]

/-- The three cases of `TestMakeKeyFromPassword`: a 12-byte password, a 16-byte one and
a longer one. -/
theorem makeKeyFromPassword_test_vectors :
    makeKeyFromPassword
        [0x74, 0x65, 0x73, 0x74, 0x50, 0x40, 0x24, 0x24, 0x77, 0x30, 0x72, 0x64]
      = [0x74, 0x65, 0x73, 0x74, 0x50, 0x40, 0x24, 0x24, 0x77, 0x30, 0x72, 0x64,
         0, 0, 0, 0] ∧
    makeKeyFromPassword ("0123456789abcdef".toList.map Char.toNat)
      = "0123456789abcdef".toList.map Char.toNat ∧
    makeKeyFromPassword ("very very very very very long password".toList.map Char.toNat)
      = "very very very v".toList.map Char.toNat := by
  decide

theorem readField_writeField (bs rest : List Nat) :
    readField (writeField bs ++ rest) = some (bs, rest) := by
  simp [readField, writeField]

theorem readString_writeString (s : String) :
    readString (s.toList.map Char.toNat) = s := by
  simp [readString, List.map_map, Function.comp_def]

theorem readEntries_writeEntries (entries : List (String × keyCacheEntry)) :
    readEntries entries.length (writeEntries entries) = some entries := by
  induction entries with
  | nil => rfl
  | cons e rest ih =>
    obtain ⟨k, ⟨⟨keyID, imsi, ck⟩⟩⟩ := e
    simp only [List.length_cons, writeEntries, writeString, readEntries, List.append_assoc,
      readField_writeField, ih, readString_writeString]

/-- The sample serializer round-trips every mapping: the assumption made on the
serializer in the theorems on `save` and `load` can be met for every cache. -/
theorem sampleSerializer_roundtrip (entries : List (String × keyCacheEntry)) :
    ∃ plainData, sampleSerializer.marshal entries = .ok plainData ∧
      sampleSerializer.unmarshal plainData = .ok entries := by
  refine ⟨entries.length :: writeEntries entries, rfl, ?_⟩
  simp [sampleSerializer, readEntries_writeEntries]

/-- C1: for every plaintext, every 16-byte IV and every key (of any length), in every
stream mode, `encode` succeeds and `decode` of its output with the same key succeeds
and returns exactly the plaintext. -/
theorem encode_decode_roundtrip (mode : StreamMode) (plainData key iv : List Nat)
    (hiv : iv.length = 16) :
    ∃ encodedData, encode mode plainData key iv = .ok encodedData ∧
      decode mode encodedData key = .ok plainData := by
  exact ⟨_, encode_eq mode plainData key iv hiv, decode_encode_eq mode plainData key iv hiv⟩

/-- Witness for C1: a 20-byte plaintext (more than one block), the 12-byte key and the
IV of `TestEncodeAndDecode`, in CFB mode. -/
theorem encode_decode_roundtrip_witness :
    [0, 1, 2, 3, 4, 5, 6, 7, 8, 9, 10, 11, 12, 13, 14, 15].length = 16 ∧
    ∃ encodedData,
      encode .cfb [1, 2, 3, 4, 5, 6, 7, 8, 9, 10, 11, 12, 13, 14, 15, 16, 17, 18, 19, 20]
        [0x74, 0x65, 0x73, 0x74, 0x50, 0x40, 0x24, 0x24, 0x77, 0x30, 0x72, 0x64]
        [0, 1, 2, 3, 4, 5, 6, 7, 8, 9, 10, 11, 12, 13, 14, 15] = .ok encodedData ∧
      decode .cfb encodedData
        [0x74, 0x65, 0x73, 0x74, 0x50, 0x40, 0x24, 0x24, 0x77, 0x30, 0x72, 0x64]
        = .ok [1, 2, 3, 4, 5, 6, 7, 8, 9, 10, 11, 12, 13, 14, 15, 16, 17, 18, 19, 20] :=
  ⟨by decide, encode_decode_roundtrip .cfb _ _ _ (by decide)⟩

/-- C2: `makeKeyFromPassword` always returns exactly 16 bytes, equal to the first 16
bytes of the password followed by 16 zero bytes: the password right-padded with zero
bytes when it is shorter than 16, its first 16 bytes when it is longer, the password
itself when it has 16 bytes. -/
theorem makeKeyFromPassword_spec (password : List Nat) :
    (makeKeyFromPassword password).length = 16 ∧
    makeKeyFromPassword password = (password ++ List.replicate 16 0).take 16 ∧
    (password.length < 16 →
      makeKeyFromPassword password
        = password ++ List.replicate (16 - password.length) 0) ∧
    (16 < password.length → makeKeyFromPassword password = password.take 16) ∧
    (password.length = 16 → makeKeyFromPassword password = password) := by
  refine ⟨makeKeyFromPassword_length password, ?_, ?_, ?_, ?_⟩
  · unfold makeKeyFromPassword
    split
    · rename_i h
      rw [List.take_append_eq_append_take, List.take_of_length_le (by omega),
        List.take_replicate]
      congr 2
      omega
    · split
      · rename_i h1 h2
        rw [List.take_append_eq_append_take]
        have : 16 - password.length = 0 := by omega
        simp [this]
      · rename_i h1 h2
        have h16 : password.length = 16 := by omega
        rw [List.take_append_eq_append_take]
        simp [h16, List.take_of_length_le]
  · intro h; simp [makeKeyFromPassword, h]
  · intro h
    have : ¬ password.length < 16 := by omega
    simp [makeKeyFromPassword, this, h]
  · intro h; simp [makeKeyFromPassword, h]

/-- C4: `encode` of "hello" under the 12-byte key "testP@$$w0rd" and the IV
`00 01 .. 0f` returns exactly the IV followed by `70 26 d5 66 c6`, and `decode` of
those 21 bytes under the same key returns "hello"; so in each of the stream modes. -/
theorem encode_known_answer (mode : StreamMode) :
    encode mode [0x68, 0x65, 0x6c, 0x6c, 0x6f]
        [0x74, 0x65, 0x73, 0x74, 0x50, 0x40, 0x24, 0x24, 0x77, 0x30, 0x72, 0x64]
        [0x00, 0x01, 0x02, 0x03, 0x04, 0x05, 0x06, 0x07,
         0x08, 0x09, 0x0a, 0x0b, 0x0c, 0x0d, 0x0e, 0x0f]
      = .ok [0x00, 0x01, 0x02, 0x03, 0x04, 0x05, 0x06, 0x07,
             0x08, 0x09, 0x0a, 0x0b, 0x0c, 0x0d, 0x0e, 0x0f,
             0x70, 0x26, 0xd5, 0x66, 0xc6] ∧
    decode mode [0x00, 0x01, 0x02, 0x03, 0x04, 0x05, 0x06, 0x07,
                 0x08, 0x09, 0x0a, 0x0b, 0x0c, 0x0d, 0x0e, 0x0f,
                 0x70, 0x26, 0xd5, 0x66, 0xc6]
        [0x74, 0x65, 0x73, 0x74, 0x50, 0x40, 0x24, 0x24, 0x77, 0x30, 0x72, 0x64]
      = .ok [0x68, 0x65, 0x6c, 0x6c, 0x6f] := by
  cases mode <;> exact ⟨rfl, rfl⟩


end endorse

namespace cli

open endorse (UICCInterfaceType KeyCacheConfig SerialConfig URL Config)

theorem endpointOf_ok (c : Collaborators) (f : Flags)
    (hurl : f.keysAPIEndpointURL = "" ∨ ∃ u, c.urlParse f.keysAPIEndpointURL = .ok u) :
    ∃ kaeu, endpointOf c f = .ok kaeu := by
  unfold endpointOf
  by_cases h : f.keysAPIEndpointURL = ""
  · exact ⟨none, by simp [h]⟩
  · rcases hurl with h0 | ⟨u, hu⟩
    · exact absurd h0 h
    · exact ⟨some u, by simp [h, hu]⟩

/-- The value of `parseFlags` once `-help` and `-version` are unset, the interface
text is valid and the endpoint URL is parseable. -/
theorem parseFlags_parsed (c : Collaborators) (f : Flags) (u : UICCInterfaceType)
    (kaeu : Option URL) (hhelp : f.help = false) (hversion : f.version = false)
    (hparse : c.ParseUICCInterfaceType f.uiccInterfaceType = .ok u)
    (hurl : endpointOf c f = .ok kaeu) :
    parseFlags c f =
      if f.listCOMPorts then
        { rm := .runModeListCOMPorts, appCfg := some { Debug := f.debug },
          eCfg := some
            { KeysAPIEndpointURL := kaeu,
              UICCInterfaceType := .UICCInterfaceTypeNone,
              KeyCache := { Disabled := f.disableKeyCache, Clear := f.clearKeyCache },
              Serial :=
                { PortName := f.portName, BaudRate := f.baudRate, DataBits := f.dataBits,
                  StopBits := f.stopBits, ParityMode := f.parityMode } },
          err := none }
      else if f.deviceInfo then
        if f.portName = "" then
          { rm := .runModeUnknown, appCfg := none, eCfg := none,
            err := some "-port-name must be specified with -device-info" }
        else
          { rm := .runModeDeviceInfo, appCfg := some { Debug := f.debug },
            eCfg := some
              { KeysAPIEndpointURL := kaeu,
                UICCInterfaceType := .UICCInterfaceTypeComm,
                KeyCache := { Disabled := f.disableKeyCache, Clear := f.clearKeyCache },
                Serial :=
                  { PortName := f.portName, BaudRate := f.baudRate, DataBits := f.dataBits,
                    StopBits := f.stopBits, ParityMode := f.parityMode } },
            err := none }
      else
        { rm := .runModeDoAuthentication, appCfg := some { Debug := f.debug },
          eCfg := some
            { KeysAPIEndpointURL := kaeu,
              UICCInterfaceType :=
                if f.portName ≠ "" then .UICCInterfaceTypeComm else u,
              KeyCache := { Disabled := f.disableKeyCache, Clear := f.clearKeyCache },
              Serial :=
                { PortName := f.portName, BaudRate := f.baudRate, DataBits := f.dataBits,
                  StopBits := f.stopBits, ParityMode := f.parityMode } },
          err := none } := by
  unfold endpointOf at hurl
  unfold parseFlags
  simp only [hhelp, hversion, hparse, hurl]
  simp


/-- Counterexample to C7: with the defaults (`-interface autoDetect`, no port name)
`parseFlags` selects an authentication run and the Config it returns carries
`UICCInterfaceTypeAutoDetect`, not the direct reader kind. -/
theorem autoDetect_empty_portName_counterexample :
    (parseFlags sampleCollaborators { uiccInterfaceType := "autoDetect", portName := "" }).rm
      = .runModeDoAuthentication ∧
    ((parseFlags sampleCollaborators
        { uiccInterfaceType := "autoDetect", portName := "" }).eCfg.map
      fun cfg => cfg.UICCInterfaceType) = some .UICCInterfaceTypeAutoDetect ∧
    ((parseFlags sampleCollaborators
        { uiccInterfaceType := "autoDetect", portName := "" }).eCfg.map
      fun cfg => cfg.UICCInterfaceType) ≠ some .UICCInterfaceTypeIso7816 := by
  decide

/-- C7, amended: when the interface selection is AutoDetect, the Config that
`parseFlags` returns for an authentication run carries `UICCInterfaceTypeComm`
whenever a non-empty port name is given, and still `UICCInterfaceTypeAutoDetect` when
the port name is empty. -/
theorem autoDetect_resolution (c : Collaborators) (f : Flags)
    (hhelp : f.help = false) (hversion : f.version = false)
    (hlist : f.listCOMPorts = false) (hdevice : f.deviceInfo = false)
    (hparse : c.ParseUICCInterfaceType f.uiccInterfaceType
      = .ok .UICCInterfaceTypeAutoDetect)
    (hurl : f.keysAPIEndpointURL = "" ∨ ∃ u, c.urlParse f.keysAPIEndpointURL = .ok u) :
    ∃ cfg, (parseFlags c f).rm = .runModeDoAuthentication ∧
      (parseFlags c f).err = none ∧ (parseFlags c f).eCfg = some cfg ∧
      (f.portName ≠ "" → cfg.UICCInterfaceType = .UICCInterfaceTypeComm) ∧
      (f.portName = "" → cfg.UICCInterfaceType = .UICCInterfaceTypeAutoDetect) := by
  obtain ⟨kaeu, hk⟩ := endpointOf_ok c f hurl
  rw [parseFlags_parsed c f _ kaeu hhelp hversion hparse hk]
  simp only [hlist, hdevice]
  refine ⟨_, rfl, rfl, rfl, ?_, ?_⟩
  · intro h; simp [h]
  · intro h; simp [h]

/-- Witness for C7, amended: `-interface autoDetect -port-name COM1`. -/
theorem autoDetect_resolution_witness :
    ∃ cfg,
      (parseFlags sampleCollaborators { portName := "COM1" }).rm
        = .runModeDoAuthentication ∧
      (parseFlags sampleCollaborators { portName := "COM1" }).err = none ∧
      (parseFlags sampleCollaborators { portName := "COM1" }).eCfg = some cfg ∧
      (("COM1" : String) ≠ "" → cfg.UICCInterfaceType = .UICCInterfaceTypeComm) ∧
      (("COM1" : String) = "" → cfg.UICCInterfaceType = .UICCInterfaceTypeAutoDetect) :=
  autoDetect_resolution sampleCollaborators { portName := "COM1" } rfl rfl rfl rfl
    rfl (Or.inl rfl)

/-- C8: with `-device-info` set, `-list-com-ports`, `-help` and `-version` unset, a
valid `-interface` text and a parseable endpoint URL, `parseFlags` returns an error,
and then no Config, if and only if the port name is empty; in that case `run`
returns that error with no event at all: `endorse.NewClient` is not called. -/
theorem deviceInfo_requires_portName (c : Collaborators) (f : Flags)
    (u : UICCInterfaceType)
    (hdevice : f.deviceInfo = true) (hlist : f.listCOMPorts = false)
    (hhelp : f.help = false) (hversion : f.version = false)
    (hparse : c.ParseUICCInterfaceType f.uiccInterfaceType = .ok u)
    (hurl : f.keysAPIEndpointURL = "" ∨ ∃ x, c.urlParse f.keysAPIEndpointURL = .ok x) :
    ((parseFlags c f).err ≠ none ↔ f.portName = "") ∧
    ((parseFlags c f).err ≠ none → (parseFlags c f).eCfg = none) ∧
    ((parseFlags c f).err = none → (parseFlags c f).eCfg ≠ none) ∧
    (f.portName = "" →
      (parseFlags c f).err ≠ none ∧ run c f = ([], (parseFlags c f).err)) := by
  obtain ⟨kaeu, hk⟩ := endpointOf_ok c f hurl
  have hpf := parseFlags_parsed c f u kaeu hhelp hversion hparse hk
  simp only [hlist, hdevice] at hpf
  by_cases hp : f.portName = ""
  · simp only [hp, if_true] at hpf
    have hrun : run c f = ([], (parseFlags c f).err) := by
      simp [run, hpf, parseFlagsEvents, hhelp, hversion]
    simp [hpf, hp, hrun]
  · simp only [hp, if_false] at hpf
    simp [hpf, hp]

/-- Witness for C8: `-device-info` alone, all other flags at their defaults. -/
theorem deviceInfo_requires_portName_witness :
    (parseFlags sampleCollaborators { deviceInfo := true }).err ≠ none ∧
    run sampleCollaborators { deviceInfo := true }
      = ([], some "-port-name must be specified with -device-info") :=
  ⟨((deviceInfo_requires_portName sampleCollaborators { deviceInfo := true }
      .UICCInterfaceTypeAutoDetect rfl rfl rfl rfl rfl (Or.inl rfl)).2.2.2 rfl).1,
    by decide⟩

/-- C9: with `-list-com-ports` set, `-help` and `-version` unset, a valid `-interface`
text and a parseable endpoint URL, `parseFlags` returns `runModeListCOMPorts`, no
error, and a Config whose interface kind is `UICCInterfaceTypeNone`, whatever the
`-interface` value, the port name and the `-device-info` flag are. -/
theorem listCOMPorts_selects_none (c : Collaborators) (f : Flags) (u : UICCInterfaceType)
    (hlist : f.listCOMPorts = true) (hhelp : f.help = false)
    (hversion : f.version = false)
    (hparse : c.ParseUICCInterfaceType f.uiccInterfaceType = .ok u)
    (hurl : f.keysAPIEndpointURL = "" ∨ ∃ x, c.urlParse f.keysAPIEndpointURL = .ok x) :
    ∃ cfg, (parseFlags c f).rm = .runModeListCOMPorts ∧ (parseFlags c f).err = none ∧
      (parseFlags c f).eCfg = some cfg ∧
      cfg.UICCInterfaceType = .UICCInterfaceTypeNone := by
  obtain ⟨kaeu, hk⟩ := endpointOf_ok c f hurl
  rw [parseFlags_parsed c f u kaeu hhelp hversion hparse hk]
  rw [if_pos hlist]
  exact ⟨_, rfl, rfl, rfl, rfl⟩

/-- Witness for C9: `-list-com-ports -interface iso7816 -port-name COM1 -device-info`
with an endpoint URL. -/
theorem listCOMPorts_selects_none_witness :
    ∃ cfg,
      (parseFlags sampleCollaborators
        { listCOMPorts := true, uiccInterfaceType := "iso7816", portName := "COM1",
          deviceInfo := true, keysAPIEndpointURL := "https://example.com" }).rm
        = .runModeListCOMPorts ∧
      (parseFlags sampleCollaborators
        { listCOMPorts := true, uiccInterfaceType := "iso7816", portName := "COM1",
          deviceInfo := true, keysAPIEndpointURL := "https://example.com" }).err = none ∧
      (parseFlags sampleCollaborators
        { listCOMPorts := true, uiccInterfaceType := "iso7816", portName := "COM1",
          deviceInfo := true, keysAPIEndpointURL := "https://example.com" }).eCfg
        = some cfg ∧
      cfg.UICCInterfaceType = .UICCInterfaceTypeNone :=
  listCOMPorts_selects_none sampleCollaborators
    { listCOMPorts := true, uiccInterfaceType := "iso7816", portName := "COM1",
      deviceInfo := true, keysAPIEndpointURL := "https://example.com" }
    .UICCInterfaceTypeIso7816 rfl rfl rfl rfl (Or.inr ⟨_, rfl⟩)

/-- C10: with `-list-com-ports`, `-help` and `-version` unset, a valid `-interface`
text and a parseable endpoint URL: for every non-empty port name the Config that
`parseFlags` returns has interface kind `UICCInterfaceTypeComm`, whatever the
`-interface` value; with an empty port name and `-device-info` unset the Config carries
the parsed `-interface` value unchanged. -/
theorem portName_overrides_interface (c : Collaborators) (f : Flags)
    (u : UICCInterfaceType)
    (hlist : f.listCOMPorts = false) (hhelp : f.help = false)
    (hversion : f.version = false)
    (hparse : c.ParseUICCInterfaceType f.uiccInterfaceType = .ok u)
    (hurl : f.keysAPIEndpointURL = "" ∨ ∃ x, c.urlParse f.keysAPIEndpointURL = .ok x) :
    (f.portName ≠ "" →
      ∃ cfg, (parseFlags c f).err = none ∧ (parseFlags c f).eCfg = some cfg ∧
        cfg.UICCInterfaceType = .UICCInterfaceTypeComm) ∧
    (f.portName = "" → f.deviceInfo = false →
      ∃ cfg, (parseFlags c f).err = none ∧ (parseFlags c f).eCfg = some cfg ∧
        cfg.UICCInterfaceType = u) := by
  obtain ⟨kaeu, hk⟩ := endpointOf_ok c f hurl
  rw [parseFlags_parsed c f u kaeu hhelp hversion hparse hk]
  simp only [hlist]
  constructor
  · intro hp
    by_cases hd : f.deviceInfo = true
    · simp [hd, hp]
    · simp [hd, hp]
  · intro hp hd
    simp [hd, hp]

/-- Witness for C10: `-interface iso7816 -port-name /dev/tty1`. -/
theorem portName_overrides_interface_witness :
    ∃ cfg,
      (parseFlags sampleCollaborators
        { uiccInterfaceType := "iso7816", portName := "/dev/tty1" }).err = none ∧
      (parseFlags sampleCollaborators
        { uiccInterfaceType := "iso7816", portName := "/dev/tty1" }).eCfg = some cfg ∧
      cfg.UICCInterfaceType = .UICCInterfaceTypeComm :=
  (portName_overrides_interface sampleCollaborators
    { uiccInterfaceType := "iso7816", portName := "/dev/tty1" }
    .UICCInterfaceTypeIso7816 rfl rfl rfl rfl (Or.inl rfl)).1 (by decide)

end cli
